import Mathlib

/-!
# Verification of `gamma_eval_app.py`

A shallow embedding of the core logic of the gamma-evaluation application:

* the treatment-technique presets and gamma-computation parameter assembly
  (source lines 166-188, 253),
* patient-identifier derivation from the first uploaded filename
  (source lines 239-244),
* the gating of the save interface on a successful analysis
  (source lines 264-276),
* the record-store append `append_to_excel` with schema reconciliation and
  column-width formatting (source lines 52-143).

Numeric values that the Python program holds as floats are embedded as exact
rationals (`ℚ`); every binary64 value is such a rational. Where a property
turns on the program's float arithmetic — the threshold conversion of line
188 and the persisted `thd * 100` of line 283 — the IEEE-754 binary64
operation is modelled exactly: the exact quotient or product, rounded to 53
significant bits, round-to-nearest, ties-to-even (`roundB64`). Store cell
values are
embedded as their string renderings (`Option String`, `none` for a pandas
absent-value marker), which is the granularity at which the store logic
(reindexing, concatenation, width computation over `astype(str)`) operates.
-/

/-- The treatment-technique radio options (source line 166). -/
inductive Technique where
  | VMAT
  | SBRT
  | SRS
deriving DecidableEq, Repr

/-- The normalization radio options (source line 180). -/
inductive NormOption where
  | Local
  | Global
deriving DecidableEq, Repr

/-- Gamma parameter preset plus target sheet, as selected by the
`if option == "VMAT"` branch of source lines 169-178. -/
structure GammaPreset where
  dta : ℚ
  dd : ℚ
  res : ℚ
  sheet_name : String
deriving DecidableEq, Repr

/-- Source lines 169-178: VMAT gets `dta = 0, dd = 0.44, res = 0.1` and sheet
`"VMAT"`; SBRT and SRS both get `dta = 0, dd = 0.69, res = 0.1` and sheet
`"SBRT-SRS"`. -/
def presetFor : Technique → GammaPreset
  | .VMAT => { dta := 0, dd := 0.44, res := 0.1, sheet_name := "VMAT" }
  | .SBRT => { dta := 0, dd := 0.69, res := 0.1, sheet_name := "SBRT-SRS" }
  | .SRS => { dta := 0, dd := 0.69, res := 0.1, sheet_name := "SBRT-SRS" }

/-- Source line 182-185: `normalize = False` for Local, `True` for Global. -/
def normalizeOf : NormOption → Bool
  | .Local => false
  | .Global => true

/-- The keyword arguments passed to `calc_map` / `avg_gamma_pct`
(source lines 253 and 261). -/
structure CalcArgs where
  distTA : ℚ
  doseTA : ℚ
  threshold : ℚ
  resolution : ℚ
  normalize : Bool
deriving DecidableEq, Repr

/-- Normalization loop of the binary64 rounding: the value under scrutiny is
`(a / b) * 2 ^ e`; double `a` or `b` until the mantissa-in-progress `a / b`
lies in `[2^52, 2^53)`. The fuel bound 2200 covers the whole binary64 normal
exponent range, far beyond the magnitudes this program handles. -/
def rbLoop : Nat → Nat → Nat → ℤ → Nat × Nat × ℤ
  | 0, a, b, e => (a, b, e)
  | fuel + 1, a, b, e =>
    if a < 4503599627370496 * b then rbLoop fuel (a * 2) b (e - 1)
    else if 9007199254740992 * b ≤ a then rbLoop fuel a (b * 2) (e + 1)
    else (a, b, e)

/-- IEEE-754 binary64 rounding of an exact rational: round to 53 significant
bits, round-to-nearest, ties-to-even. This is the rounding Python applies to
the exact result of every float `/` and `*` (for results in the binary64
normal range, which the program's threshold values never leave). -/
def roundB64 (q : ℚ) : ℚ :=
  if q.num = 0 then 0
  else
    let p := rbLoop 2200 q.num.natAbs q.den 0
    let a := p.1
    let b := p.2.1
    let e := p.2.2
    let fl := a / b
    let r := a % b
    let m : Nat :=
      if 2 * r < b then fl
      else if b < 2 * r then fl + 1
      else if fl % 2 = 0 then fl else fl + 1
    let sm : ℤ := if q.num < 0 then -(m : ℤ) else (m : ℤ)
    if 0 ≤ e then mkRat (sm * ((2 ^ e.toNat : Nat) : ℤ)) 1
    else mkRat sm (2 ^ (-e).toNat)

/-- The exact quotient `t / k` of a rational by a natural, written on the
numerator and denominator (`divNat_100_eq` below proves it equals `t / k` for
`k = 100`); the exact quotient is what an IEEE division rounds. -/
def divNat (t : ℚ) (k : Nat) : ℚ := mkRat t.num (t.den * k)

/-- The exact product `t * k` of a rational by a natural, written on the
numerator (`mulNat_100_eq` below proves it equals `t * k` for `k = 100`);
the exact product is what an IEEE multiplication rounds. -/
def mulNat (t : ℚ) (k : Nat) : ℚ := mkRat (t.num * k) t.den

/-- Source line 188: the operator-entered threshold percentage is divided by
100 before being passed to pylinac. The division is the Python float
operation `thd_percent / 100.0`: the exact quotient rounded to binary64. -/
def thd_of (thd_percent : ℚ) : ℚ := roundB64 (divNat thd_percent 100)

/-- Source line 283: the persisted `Threshold (%)` field is `thd * 100`, a
Python float multiplication: the exact product rounded to binary64. -/
def persistedThreshold (thd : ℚ) : ℚ := roundB64 (mulNat thd 100)

/-- Assembly of the gamma-computation arguments from the technique preset and
the per-run operator choices (source lines 169-188 feeding line 253). -/
def calcArgs (t : Technique) (thd_percent : ℚ) (n : NormOption) : CalcArgs :=
  { distTA := (presetFor t).dta
    doseTA := (presetFor t).dd
    threshold := thd_of thd_percent
    resolution := (presetFor t).res
    normalize := normalizeOf n }

/-- Source lines 239-244: if the first filename is non-empty and has at least
12 characters, the patient identifier is its first 12 characters; otherwise a
warning is surfaced and the identifier is set to `"Unknown"`. The returned
`Bool` records whether the warning was emitted. An empty string is falsy in
Python, but its length is also below 12, so the single length test is exact. -/
def derivePatientId (file_name_for_id : String) : String × Bool :=
  if 12 ≤ file_name_for_id.length then (file_name_for_id.take 12, false)
  else ("Unknown", true)

/-- Python truthiness of a string, as tested by `if patient_id and
selected_location` on source line 277. -/
def pythonTruthy (s : String) : Bool := s ≠ ""

/-- Outcome of the analysis block of source lines 237-266: either the
session-level `all_gamma` value or the caught exception's message. -/
inductive AnalysisResult where
  | ok (gamma : ℚ)
  | err (msg : String)
deriving DecidableEq, Repr

/-- Source lines 261 and 264-266: `all_gamma` holds the computed value, and is
reset to `None` whenever the analysis block raises. -/
def all_gamma_of : AnalysisResult → Option ℚ
  | .ok g => some g
  | .err _ => none

/-- Source line 269: the save section (location picker, Octavius input and
submit button) is rendered only when `all_gamma is not None`. -/
def saveSectionShown (all_gamma : Option ℚ) : Bool := all_gamma.isSome

/-! ## The record store (`append_to_excel`, source lines 52-143) -/

/-- A store cell: `some s` is a value (at its string rendering), `none` is the
pandas absent-value marker (`NaN`/`NA`). -/
abbrev Cell := Option String

/-- A pandas DataFrame at the granularity the store logic uses: a column list
and a list of rows, each row a list of cells positionally matching `cols`. -/
structure DataFrame where
  cols : List String
  rows : List (List Cell)
deriving DecidableEq, Repr

/-- The row dictionary handed to `append_to_excel` (`data_dict`,
source lines 279-287): insertion-ordered keys with their values. -/
abbrev RowDict := List (String × Cell)

/-- Source lines 66-69: the fixed column list. -/
def standard_columns : List String :=
  ["Timestamp", "Patient ID", "Location", "Threshold (%)", "Gamma (%)",
   "Normalization", "Gamma Octavius 4D (%)"]

/-- Index of the first occurrence of a column name in a column list
(`df.columns.get_loc` as used implicitly by `reindex`). -/
def colIndex? : List String → String → Option Nat
  | [], _ => none
  | c :: cs, x => if c == x then some 0 else (colIndex? cs x).map (· + 1)

/-- `df.reindex(columns=standard_columns)` on one row: for each standard
column, the row's cell at that column if the source frame has it, the
absent-value marker otherwise (source lines 71, 88, 109). -/
def reindexRow (cols : List String) (cells : List Cell) : List Cell :=
  standard_columns.map (fun c =>
    match colIndex? cols c with
    | some i => cells.getD i none
    | none => none)

/-- `df.reindex(columns=standard_columns)` on a whole frame: unknown columns
are dropped, missing ones appear filled with the absent-value marker. -/
def reindexDF (df : DataFrame) : DataFrame :=
  { cols := standard_columns, rows := df.rows.map (reindexRow df.cols) }

/-- `pd.DataFrame([data_dict])` (source line 63): one frame whose columns are
the dictionary keys and whose single row holds the dictionary values. -/
def dfFromDict (data_dict : RowDict) : DataFrame :=
  { cols := data_dict.map (·.1), rows := [data_dict.map (·.2)] }

/-- The single reconciled row that `append_to_excel` appends:
`pd.DataFrame([data_dict]).reindex(columns=standard_columns)`'s row. -/
def newRow (data_dict : RowDict) : List Cell :=
  reindexRow (data_dict.map (·.1)) (data_dict.map (·.2))

/-- `pd.concat([a, b], ignore_index=True)` for two frames already sharing one
column list — the only way the source calls it (line 89, after both frames
were reindexed to `standard_columns`). -/
def concatDF (a b : DataFrame) : DataFrame :=
  { cols := a.cols, rows := a.rows ++ b.rows }

/-- The in-memory image of the workbook: sheet names with their frames, in
insertion order (Python dicts preserve insertion order). -/
abbrev Store := List (String × DataFrame)

/-- `all_sheets.get(sheet_name)`-style lookup: the first frame stored under a
name. -/
def getSheet (s : Store) (n : String) : Option DataFrame :=
  (s.find? (fun p => p.1 == n)).map (·.2)

/-- `all_sheets[sheet_name] = updated_df` (source line 103): replace the value
at an existing key in place, otherwise append the new key at the end. -/
def setSheet (s : Store) (n : String) (df : DataFrame) : Store :=
  if s.any (fun p => p.1 == n) then
    s.map (fun p => if p.1 == n then (n, df) else p)
  else s ++ [(n, df)]

/-- The state of the store file on disk when `append_to_excel` runs:
absent, present but unparseable (the `except` branches of source lines 92-97:
the read raises, so whatever `latent` content the bytes held is unrecoverable
and `all_sheets` stays empty), or present and readable. -/
inductive FileState where
  | absent
  | corrupted (latent : Store)
  | readable (s : Store)

/-- Worksheet column widths after the `set_column` calls: position `i` holds
`some w` when `set_column(i, i, w)` ran, `none` when the column keeps the
library default width. -/
abbrev Widths := List (Option Nat)

/-- `column_widths.get(col_name)` (source line 119): dict lookup returning
`None` for a missing key. -/
def lookupWidth (column_widths : List (String × Nat)) (c : String) : Option Nat :=
  ((column_widths.find? (fun p => p.1 == c)).map (·.2))

/-- `str(value)` of a cell: pandas renders the absent-value marker as
`"nan"` under `astype(str)` (source line 128). -/
def cellStr : Cell → String
  | some s => s
  | none => "nan"

/-- Column `i` of a frame, read positionally from every row. -/
def colCells (df : DataFrame) (i : Nat) : List Cell :=
  df.rows.map (fun r => r.getD i none)

/-- Source lines 124-132: auto width of one column,
`max(max(len(str(v)) for v in column), len(header)) + 1`. (Pandas `.max()`
over an empty column is `NaN`; the embedding is only invoked on frames with at
least one row, which is what the claims about it assume.) -/
def autoWidth (header : String) (cells : List Cell) : Nat :=
  max ((cells.map (fun c => (cellStr c).length)).foldr max 0) header.length + 1

/-- `if width is not None: worksheet.set_column(idx, idx, width)`
(source lines 120-121): set column `i`'s width when the dict lookup produced
one, leave the worksheet untouched otherwise. -/
def setColumnIf (ws : Widths) (i : Nat) (o : Option Nat) : Widths :=
  match o with
  | some w => ws.set i (some w)
  | none => ws

/-- `for idx, col_name in enumerate(standard_columns)` (source lines 118-121):
walk the column names with a running index, setting each width the dict
provides. -/
def applyConfigLoop (cw : List (String × Nat)) : Nat → List String → Widths → Widths
  | _, [], ws => ws
  | idx, c :: cs, ws => applyConfigLoop cw (idx + 1) cs (setColumnIf ws idx (lookupWidth cw c))

/-- `for idx, col in enumerate(df_to_write)` (source lines 124-132): walk the
written frame's column names with a running index, setting every auto width. -/
def applyAutoLoop (df : DataFrame) : Nat → List String → Widths → Widths
  | _, [], ws => ws
  | idx, c :: cs, ws =>
    applyAutoLoop df (idx + 1) cs (ws.set idx (some (autoWidth c (colCells df idx))))

/-- The `set_column` loops of source lines 116-132, acting on an all-default
worksheet. With an explicit `column_widths` dict the loop walks
`standard_columns` by index and sets only the columns the dict mentions;
without one it walks the written frame's columns and sets the auto width. -/
def applyWidths (column_widths : Option (List (String × Nat))) (df : DataFrame) : Widths :=
  let init : Widths := List.replicate standard_columns.length none
  match column_widths with
  | some cw => applyConfigLoop cw 0 standard_columns init
  | none => applyAutoLoop df 0 df.cols init

/-- The cell a reconciled row holds for a standard column, read at that
column's position in `standard_columns`. -/
def cellAt (row : List Cell) (c : String) : Cell :=
  match colIndex? standard_columns c with
  | some i => row.getD i none
  | none => none

/-- The observable outcome of one `append_to_excel` call: the workbook as
rewritten on disk, the widths applied to each written sheet, and whether the
non-fatal read warning of source lines 93/96 was surfaced. -/
structure AppendResult where
  written : Store
  widths : List (String × Widths)
  warning : Bool
deriving Repr

/-- Shallow embedding of `append_to_excel` (source lines 52-143).

* line 63/71: the new row is built and reindexed to `standard_columns`;
* lines 79-100: the existing workbook is read; a missing file or a read
  failure leaves `all_sheets` empty (on failure a warning is surfaced), a
  readable file yields all its sheets; when the target sheet exists its frame
  is reindexed and the new row concatenated after it, otherwise the new frame
  stands alone;
* line 103: the target sheet is stored back into `all_sheets`;
* lines 106-132: every sheet is reindexed once more and written, and the
  column widths are applied per sheet. -/
def append_to_excel (fs : FileState) (sheet_name : String) (data_dict : RowDict)
    (column_widths : Option (List (String × Nat))) : AppendResult :=
  let new_data_df := reindexDF (dfFromDict data_dict)
  let read : Store × Bool :=
    match fs with
    | .absent => ([], false)
    | .corrupted _ => ([], true)
    | .readable s => (s, false)
  let updated_df :=
    match fs with
    | .readable s =>
      match getSheet s sheet_name with
      | some existing_df => concatDF (reindexDF existing_df) new_data_df
      | none => new_data_df
    | _ => new_data_df
  let all_sheets := setSheet read.1 sheet_name updated_df
  let written := all_sheets.map (fun p => (p.1, reindexDF p.2))
  { written := written
    widths := written.map (fun p => (p.1, applyWidths column_widths p.2))
    warning := read.2 }

/-- Source lines 269-290 as one step: when the analysis produced a gamma value
the save section is reachable and pressing submit performs the append;
when it did not, no append can ever run in that session. -/
def submitFlow (ar : AnalysisResult) (fs : FileState) (sheet_name : String)
    (data_dict : RowDict) (column_widths : Option (List (String × Nat))) :
    Option AppendResult :=
  match all_gamma_of ar with
  | some _ => some (append_to_excel fs sheet_name data_dict column_widths)
  | none => none

/-! ## General lemmas about the embedding -/

theorem reindexRow_length (cols : List String) (cells : List Cell) :
    (reindexRow cols cells).length = standard_columns.length := by
  simp [reindexRow]

theorem newRow_length (d : RowDict) : (newRow d).length = standard_columns.length :=
  reindexRow_length _ _

theorem reindexRow_id (r : List Cell) (h : r.length = standard_columns.length) :
    reindexRow standard_columns r = r := by
  exact match r, h with
  | [a, b, c, d, e, f, g], _ => rfl

theorem reindexDF_id (df : DataFrame) (h1 : df.cols = standard_columns)
    (h2 : ∀ r ∈ df.rows, r.length = standard_columns.length) :
    reindexDF df = df := by
  obtain ⟨cols, rows⟩ := df
  dsimp at h1 h2
  subst h1
  simp only [reindexDF, DataFrame.mk.injEq, true_and]
  induction rows with
  | nil => rfl
  | cons r t ih =>
    simp only [List.map_cons, List.cons.injEq]
    exact ⟨reindexRow_id r (h2 r (by simp)),
      ih (fun r hr => h2 r (by simp [hr]))⟩

theorem reindexDF_dfFromDict (d : RowDict) :
    reindexDF (dfFromDict d) = ⟨standard_columns, [newRow d]⟩ := rfl

theorem getSheet_map (s : Store) (f : DataFrame → DataFrame) (n : String) :
    getSheet (s.map (fun p => (p.1, f p.2))) n = (getSheet s n).map f := by
  induction s with
  | nil => rfl
  | cons p t ih =>
    cases hb : (p.1 == n) with
    | true =>
      simp only [getSheet, List.map_cons, List.find?_cons, hb]
      rfl
    | false =>
      simp only [getSheet, List.map_cons, List.find?_cons, hb]
      exact ih

theorem getSheet_replace (s : Store) (n : String) (df : DataFrame)
    (h : s.any (fun p => p.1 == n) = true) :
    getSheet (s.map (fun p => if p.1 == n then (n, df) else p)) n = some df := by
  induction s with
  | nil => simp at h
  | cons p t ih =>
    simp only [List.any_cons, Bool.or_eq_true] at h
    cases hb : (p.1 == n) with
    | true =>
      simp only [List.map_cons, hb, if_true, getSheet, List.find?_cons,
        beq_self_eq_true]
      rfl
    | false =>
      have ht : t.any (fun p => p.1 == n) = true := by
        rcases h with h | h
        · rw [hb] at h; cases h
        · exact h
      simp only [List.map_cons, hb, Bool.false_eq_true, if_false, getSheet,
        List.find?_cons]
      exact ih ht

theorem getSheet_appendNew (s : Store) (n : String) (df : DataFrame)
    (h : s.any (fun p => p.1 == n) = false) :
    getSheet (s ++ [(n, df)]) n = some df := by
  induction s with
  | nil => simp [getSheet]
  | cons p t ih =>
    simp only [List.any_cons, Bool.or_eq_false_iff] at h
    simp only [List.cons_append, getSheet, List.find?_cons, h.1]
    exact ih h.2

theorem getSheet_setSheet (s : Store) (n : String) (df : DataFrame) :
    getSheet (setSheet s n df) n = some df := by
  unfold setSheet
  cases h : s.any (fun p => p.1 == n) with
  | true => simpa [h] using getSheet_replace s n df h
  | false => simpa [h] using getSheet_appendNew s n df h

theorem append_absent_written (sheet : String) (d : RowDict)
    (cw : Option (List (String × Nat))) :
    (append_to_excel .absent sheet d cw).written
      = [(sheet, ⟨standard_columns, [newRow d]⟩)] := by
  have h2 : reindexDF ⟨standard_columns, [newRow d]⟩ = ⟨standard_columns, [newRow d]⟩ :=
    reindexDF_id _ rfl (by intro r hr; simp at hr; subst hr; exact newRow_length d)
  show [(sheet, reindexDF (reindexDF (dfFromDict d)))] = _
  rw [reindexDF_dfFromDict, h2]

theorem append_corrupted_written (latent : Store) (sheet : String) (d : RowDict)
    (cw : Option (List (String × Nat))) :
    (append_to_excel (.corrupted latent) sheet d cw).written
      = [(sheet, ⟨standard_columns, [newRow d]⟩)] := by
  have h2 : reindexDF ⟨standard_columns, [newRow d]⟩ = ⟨standard_columns, [newRow d]⟩ :=
    reindexDF_id _ rfl (by intro r hr; simp at hr; subst hr; exact newRow_length d)
  show [(sheet, reindexDF (reindexDF (dfFromDict d)))] = _
  rw [reindexDF_dfFromDict, h2]

theorem getSheet_append_absent (sheet : String) (d : RowDict)
    (cw : Option (List (String × Nat))) :
    getSheet (append_to_excel .absent sheet d cw).written sheet
      = some ⟨standard_columns, [newRow d]⟩ := by
  rw [append_absent_written]
  simp [getSheet]

theorem getSheet_append_readable (s : Store) (sheet : String) (d : RowDict)
    (cw : Option (List (String × Nat))) (existing : DataFrame)
    (h1 : getSheet s sheet = some existing)
    (h2 : existing.cols = standard_columns)
    (h3 : ∀ r ∈ existing.rows, r.length = standard_columns.length) :
    getSheet (append_to_excel (.readable s) sheet d cw).written sheet
      = some ⟨standard_columns, existing.rows ++ [newRow d]⟩ := by
  have hup : concatDF (reindexDF existing) (reindexDF (dfFromDict d))
      = ⟨standard_columns, existing.rows ++ [newRow d]⟩ := by
    rw [reindexDF_id existing h2 h3, reindexDF_dfFromDict]
    simp [concatDF, h2]
  have hfin : reindexDF ⟨standard_columns, existing.rows ++ [newRow d]⟩
      = ⟨standard_columns, existing.rows ++ [newRow d]⟩ :=
    reindexDF_id _ rfl (by
      intro r hr
      rcases List.mem_append.1 hr with hr | hr
      · exact h3 r hr
      · simp at hr; subst hr; exact newRow_length d)
  simp only [append_to_excel, h1]
  rw [hup, getSheet_map, getSheet_setSheet]
  simp [hfin]

theorem applyWidths_config (cw : List (String × Nat)) (df : DataFrame) :
    applyWidths (some cw) df = standard_columns.map (fun c => lookupWidth cw c) := by
  rcases h0 : lookupWidth cw "Timestamp" with _ | w0 <;>
  rcases h1 : lookupWidth cw "Patient ID" with _ | w1 <;>
  rcases h2 : lookupWidth cw "Location" with _ | w2 <;>
  rcases h3 : lookupWidth cw "Threshold (%)" with _ | w3 <;>
  rcases h4 : lookupWidth cw "Gamma (%)" with _ | w4 <;>
  rcases h5 : lookupWidth cw "Normalization" with _ | w5 <;>
  rcases h6 : lookupWidth cw "Gamma Octavius 4D (%)" with _ | w6 <;>
  simp [applyWidths, applyConfigLoop, setColumnIf, h0, h1, h2, h3, h4, h5, h6,
    standard_columns]

theorem applyWidths_auto (rows : List (List Cell)) (i : Nat)
    (hi : i < standard_columns.length) :
    (applyWidths none ⟨standard_columns, rows⟩).getD i none
      = some (autoWidth (standard_columns.getD i "")
          (colCells ⟨standard_columns, rows⟩ i)) := by
  have hi7 : i < 7 := hi
  interval_cases i <;> rfl

theorem divNat_100_eq (t : ℚ) : divNat t 100 = t / 100 := by
  rw [divNat, Rat.mkRat_eq_div]
  push_cast
  rw [← div_div, Rat.num_div_den]

theorem mulNat_100_eq (t : ℚ) : mulNat t 100 = t * 100 := by
  rw [mulNat, Rat.mkRat_eq_div]
  push_cast
  conv_rhs => rw [← Rat.num_div_den t]
  rw [div_mul_eq_mul_div]

/-! ## The claims -/

/-- C1 (counterexample): the claim that an append over an unparseable store
file preserves every other category's existing rows is false. With a store
file whose (unreadable) content held a `"VMAT"` category with one row,
appending to `"SBRT-SRS"` rewrites the store without any `"VMAT"` sheet at
all, although the latent store did have one. -/
theorem C1_claim_counterexample :
    getSheet ((append_to_excel
        (.corrupted [("VMAT", ⟨standard_columns,
            [[some "a", some "b", some "c", some "d", some "e", some "f", some "g"]]⟩)])
        "SBRT-SRS" [("Timestamp", some "t")] none).written) "VMAT" = none
    ∧ getSheet [("VMAT", (⟨standard_columns,
        [[some "a", some "b", some "c", some "d", some "e", some "f", some "g"]]⟩ : DataFrame))]
        "VMAT" ≠ none := by
  decide

/-- C1 (amended): when the store file exists but cannot be parsed, the append
still succeeds and surfaces the non-fatal read warning, and the target
category ends up containing just the new record — but the store falls back to
an empty state as a whole, not for the affected category only: the rewritten
store consists of exactly the target category, so the rows of every other
category are lost, whatever the unreadable file held. -/
theorem C1_corrupted_append (latent : Store) (sheet : String) (d : RowDict)
    (cw : Option (List (String × Nat))) :
    (append_to_excel (.corrupted latent) sheet d cw).warning = true
    ∧ (append_to_excel (.corrupted latent) sheet d cw).written
        = [(sheet, ⟨standard_columns, [newRow d]⟩)] :=
  ⟨rfl, append_corrupted_written latent sheet d cw⟩

/-- C2 (counterexample): the claim that a first filename shorter than 12
characters is rejected with a clear error, rather than an identifier being
substituted, is false. For the 11-character filename `"ABCDEFGHIJK"` the
program surfaces a warning but substitutes the identifier `"Unknown"`, which
is truthy, so submission with it remains possible. -/
theorem C2_claim_counterexample :
    derivePatientId "ABCDEFGHIJK" = ("Unknown", true)
    ∧ pythonTruthy (derivePatientId "ABCDEFGHIJK").1 = true := by
  decide

/-- C2 (amended): for every submitted first filename shorter than 12
characters, patient-identifier derivation surfaces a warning and substitutes
the placeholder identifier `"Unknown"` (no silent truncation occurs); the
placeholder passes the truthiness check guarding submission. -/
theorem C2_short_filename_substitutes (name : String) (h : name.length < 12) :
    derivePatientId name = ("Unknown", true)
    ∧ pythonTruthy (derivePatientId name).1 = true := by
  have h' : ¬ 12 ≤ name.length := by omega
  refine ⟨by simp [derivePatientId, h'], ?_⟩
  simp [derivePatientId, h', pythonTruthy]

/-- C2 witness: the amended claim at the concrete short filename
`"arc1.bin"`. -/
theorem C2_short_filename_witness :
    derivePatientId "arc1.bin" = ("Unknown", true)
    ∧ pythonTruthy (derivePatientId "arc1.bin").1 = true :=
  C2_short_filename_substitutes "arc1.bin" (by decide)

/-- C3: with a readable store whose target category conforms to the standard
schema, the append leaves every prior row of that category unchanged, in its
original order, and adds the reconciled new record as the last row (nothing
is deduplicated or reordered); with no store, the append creates the category
with exactly the one new row; and a second append after that yields exactly
two rows in submission order — in particular two identical submissions yield
two rows. -/
theorem C3_append_preserves_rows (s : Store) (sheet : String) (d : RowDict)
    (cw : Option (List (String × Nat))) (existing : DataFrame)
    (h1 : getSheet s sheet = some existing)
    (h2 : existing.cols = standard_columns)
    (h3 : ∀ r ∈ existing.rows, r.length = standard_columns.length) :
    getSheet (append_to_excel (.readable s) sheet d cw).written sheet
        = some ⟨standard_columns, existing.rows ++ [newRow d]⟩
    ∧ (∀ d1 : RowDict, getSheet (append_to_excel .absent sheet d1 cw).written sheet
        = some ⟨standard_columns, [newRow d1]⟩)
    ∧ (∀ d1 d2 : RowDict,
        getSheet (append_to_excel
            (.readable (append_to_excel .absent sheet d1 cw).written) sheet d2 cw).written
            sheet
          = some ⟨standard_columns, [newRow d1, newRow d2]⟩) := by
  refine ⟨getSheet_append_readable s sheet d cw existing h1 h2 h3,
    fun d1 => getSheet_append_absent sheet d1 cw, fun d1 d2 => ?_⟩
  have hg : getSheet (append_to_excel .absent sheet d1 cw).written sheet
      = some ⟨standard_columns, [newRow d1]⟩ := getSheet_append_absent sheet d1 cw
  have h := getSheet_append_readable (append_to_excel .absent sheet d1 cw).written sheet d2 cw
    ⟨standard_columns, [newRow d1]⟩ hg rfl
    (by intro r hr; simp at hr; subst hr; exact newRow_length d1)
  simpa using h

/-- C3 witness: appending `[("Patient ID", some "X")]` to a one-row `"VMAT"`
category keeps the old row first and adds the reconciled new row last. -/
theorem C3_append_preserves_rows_witness :
    (getSheet [("VMAT", (⟨standard_columns,
        [[none, none, none, none, none, none, none]]⟩ : DataFrame))] "VMAT"
      = some ⟨standard_columns, [[none, none, none, none, none, none, none]]⟩)
    ∧ getSheet (append_to_excel
        (.readable [("VMAT", ⟨standard_columns, [[none, none, none, none, none, none, none]]⟩)])
        "VMAT" [("Patient ID", some "X")] none).written "VMAT"
      = some ⟨standard_columns, [[none, none, none, none, none, none, none],
          newRow [("Patient ID", some "X")]]⟩ :=
  ⟨rfl, (C3_append_preserves_rows
    [("VMAT", ⟨standard_columns, [[none, none, none, none, none, none, none]]⟩)]
    "VMAT" [("Patient ID", some "X")] none
    ⟨standard_columns, [[none, none, none, none, none, none, none]]⟩ rfl rfl
    (by decide)).1⟩

/-- C4: after any append, every category written to the store carries exactly
the seven standard columns in their fixed order, and each of its rows has
exactly one cell per standard column; a standard column that the source frame
lacks is filled with the absent-value marker, and a written frame's columns
are all standard ones (so any unknown pre-existing column has been dropped). -/
theorem C4_schema_reconciliation (fs : FileState) (sheet : String) (d : RowDict)
    (cw : Option (List (String × Nat))) :
    (∀ p ∈ (append_to_excel fs sheet d cw).written,
        p.2.cols = standard_columns
        ∧ ∀ r ∈ p.2.rows, r.length = standard_columns.length)
    ∧ (∀ (cols : List String) (cells : List Cell) (c : String),
        c ∈ standard_columns → colIndex? cols c = none →
          cellAt (reindexRow cols cells) c = none) := by
  constructor
  · intro p hp
    obtain ⟨q, hq, rfl⟩ := List.mem_map.1 hp
    refine ⟨rfl, ?_⟩
    intro r hr
    obtain ⟨r0, hr0, rfl⟩ := List.mem_map.1 hr
    exact reindexRow_length _ _
  · intro cols cells c hc hnone
    simp only [standard_columns] at hc
    fin_cases hc <;> simp [cellAt, reindexRow, standard_columns, colIndex?, hnone]

/-- C4 witness: the schema property at a concrete append into an absent
store. -/
theorem C4_schema_reconciliation_witness :
    (("VMAT", (⟨standard_columns, [newRow [("Patient ID", some "X")]]⟩ : DataFrame))
        ∈ (append_to_excel .absent "VMAT" [("Patient ID", some "X")] none).written)
    ∧ (⟨standard_columns, [newRow [("Patient ID", some "X")]]⟩ : DataFrame).cols
        = standard_columns := by
  have hmem : ("VMAT", (⟨standard_columns, [newRow [("Patient ID", some "X")]]⟩ : DataFrame))
      ∈ (append_to_excel .absent "VMAT" [("Patient ID", some "X")] none).written := by
    decide
  exact ⟨hmem,
    ((C4_schema_reconciliation .absent "VMAT" [("Patient ID", some "X")] none).1 _ hmem).1⟩

/-- C5: for every technique preset selectable in the program, the
distance-to-agreement passed to the gamma computation is exactly 0 mm and the
resolution exactly 0.1 mm, whatever the per-run threshold and normalization;
only the dose-difference criterion differs, 0.44 for VMAT and 0.69 for the
stereotactic options. -/
theorem C5_preset_parameters (t : Technique) (thd : ℚ) (n : NormOption) :
    (calcArgs t thd n).distTA = 0
    ∧ (calcArgs t thd n).resolution = 0.1
    ∧ (calcArgs t thd n).doseTA = (if t = .VMAT then 0.44 else 0.69) := by
  cases t <;> exact ⟨rfl, rfl, rfl⟩

/-- C6: for every submitted first filename of length at least 12, the derived
patient identifier is exactly its first 12 characters, with no warning. -/
theorem C6_patient_id_first12 (name : String) (h : 12 ≤ name.length) :
    derivePatientId name = (name.take 12, false) := by
  simp [derivePatientId, h]

/-- C6 witness: the spec's example filename yields `"ABCDEFGHIJKL"`. -/
theorem C6_patient_id_first12_witness :
    (12 ≤ ("ABCDEFGHIJKL_arc1.log" : String).length)
    ∧ derivePatientId "ABCDEFGHIJKL_arc1.log" = ("ABCDEFGHIJKL", false) :=
  ⟨by decide, C6_patient_id_first12 "ABCDEFGHIJKL_arc1.log" (by decide)⟩

/-- C7: the target category is a function of the selected technique alone —
`"VMAT"` for conventional arc therapy and the distinct `"SBRT-SRS"` for both
stereotactic techniques; the preset gamma parameters depend only on the
technique (unchanged under any threshold or normalization choice), while the
threshold and normalization passed to the computation are exactly the per-run
operator choices. -/
theorem C7_category_and_presets :
    (presetFor .VMAT).sheet_name = "VMAT"
    ∧ (presetFor .SBRT).sheet_name = "SBRT-SRS"
    ∧ (presetFor .SRS).sheet_name = "SBRT-SRS"
    ∧ (presetFor .VMAT).sheet_name ≠ (presetFor .SBRT).sheet_name
    ∧ (∀ (t : Technique) (thd thd' : ℚ) (n n' : NormOption),
        (calcArgs t thd n).distTA = (calcArgs t thd' n').distTA
        ∧ (calcArgs t thd n).doseTA = (calcArgs t thd' n').doseTA
        ∧ (calcArgs t thd n).resolution = (calcArgs t thd' n').resolution)
    ∧ (∀ (t : Technique) (thd : ℚ) (n : NormOption),
        (calcArgs t thd n).threshold = thd_of thd
        ∧ (calcArgs t thd n).normalize = normalizeOf n) := by
  refine ⟨rfl, rfl, rfl, by decide, ?_, ?_⟩
  · intro t thd thd' n n'
    exact ⟨rfl, rfl, rfl⟩
  · intro t thd n
    exact ⟨rfl, rfl⟩

/-- C8: if the session analysis failed, the save section is not shown and no
append can happen in that session; conversely, whenever the save section is
reachable the analysis did produce a gamma value, and submitting performs the
append. -/
theorem C8_save_gated_on_success :
    (∀ (msg : String) (fs : FileState) (sheet : String) (d : RowDict)
        (cw : Option (List (String × Nat))),
        submitFlow (.err msg) fs sheet d cw = none
        ∧ saveSectionShown (all_gamma_of (.err msg)) = false)
    ∧ (∀ (ar : AnalysisResult) (fs : FileState) (sheet : String) (d : RowDict)
        (cw : Option (List (String × Nat))),
        saveSectionShown (all_gamma_of ar) = true →
          ∃ g, ar = .ok g
            ∧ submitFlow ar fs sheet d cw = some (append_to_excel fs sheet d cw)) := by
  constructor
  · intro msg fs sheet d cw
    exact ⟨rfl, rfl⟩
  · intro ar fs sheet d cw h
    cases ar with
    | ok g => exact ⟨g, rfl, rfl⟩
    | err m => simp [saveSectionShown, all_gamma_of] at h

/-- C8 witness: a session whose analysis produced the gamma value 95 reaches
the save section and its submit performs the append. -/
theorem C8_save_gated_on_success_witness :
    ∃ g, AnalysisResult.ok (95 : ℚ) = .ok g
      ∧ submitFlow (.ok 95) .absent "VMAT" [] none
          = some (append_to_excel .absent "VMAT" [] none) :=
  C8_save_gated_on_success.2 (.ok 95) .absent "VMAT" [] none rfl

/-- C9 (counterexample): the round-trip identity of the original claim is
false on the program's binary64 arithmetic. Entering a threshold of 29
persists `(29 / 100.0) * 100 = 8162774324609023 / 2^48` — the float printed
as `28.999999999999996`, one unit in the last place below 29. -/
theorem C9_claim_counterexample :
    persistedThreshold (thd_of 29) ≠ 29
    ∧ persistedThreshold (thd_of 29) = mkRat 8162774324609023 281474976710656 := by
  decide

set_option maxHeartbeats 4000000 in
set_option maxRecDepth 100000 in
/-- C9 (amended): the operator-entered threshold is converted to a fraction
by a binary64 division by 100 before the gamma computation, and the persisted
`Threshold (%)` value is that fraction multiplied back by 100 in binary64 —
a round trip that is not the identity in general. Among the integer
thresholds 0-100 that the input widget's 1.0 step reaches, the persisted
value equals the entered one except for 7, 14, 28, 29, 55, 56, 57 and 58,
where rounding makes it differ. -/
theorem C9_threshold_roundtrip_binary64 :
    ∀ n : Nat, n ≤ 100 →
      (persistedThreshold (thd_of (n : ℚ)) = (n : ℚ) ↔
        n ∉ ([7, 14, 28, 29, 55, 56, 57, 58] : List Nat)) := by
  decide

/-- C9 witness: the amended claim at the input widget's default threshold 10,
whose round trip is the identity. -/
theorem C9_threshold_roundtrip_binary64_witness :
    ((10 : Nat) ≤ 100)
    ∧ persistedThreshold (thd_of ((10 : Nat) : ℚ)) = ((10 : Nat) : ℚ) :=
  ⟨by decide, (C9_threshold_roundtrip_binary64 10 (by decide)).mpr (by decide)⟩

/-- C10: the widths applied on a persist are computed per written sheet; with
an explicit width-per-column configuration, each standard column's width is
exactly the configuration's entry for it (unset when the configuration lacks
one); without a configuration, each column of a written (hence
standard-schema) frame with at least one row gets
`max(max string length of any value, header length) + 1`. -/
theorem C10_column_widths (fs : FileState) (sheet : String) (d : RowDict)
    (cw : List (String × Nat)) (df : DataFrame)
    (hcols : df.cols = standard_columns) (hrows : df.rows ≠ []) :
    (∀ cfg : Option (List (String × Nat)),
        (append_to_excel fs sheet d cfg).widths
          = (append_to_excel fs sheet d cfg).written.map (fun p => (p.1, applyWidths cfg p.2)))
    ∧ applyWidths (some cw) df = standard_columns.map (fun c => lookupWidth cw c)
    ∧ (∀ i, i < standard_columns.length →
        (applyWidths none df).getD i none
          = some (max (((colCells df i).map (fun c => (cellStr c).length)).foldr max 0)
              (standard_columns.getD i "").length + 1)) := by
  refine ⟨fun cfg => rfl, applyWidths_config cw df, ?_⟩
  intro i hi
  obtain ⟨cols, rows⟩ := df
  dsimp only at hcols
  subst hcols
  exact applyWidths_auto rows i hi

/-- C10 witness: the configured-width equality at a concrete configuration
and single-row frame. -/
theorem C10_column_widths_witness :
    ((⟨standard_columns, [[some "a", none, none, none, none, none, none]]⟩ : DataFrame).cols
        = standard_columns)
    ∧ ((⟨standard_columns, [[some "a", none, none, none, none, none, none]]⟩ : DataFrame).rows
        ≠ [])
    ∧ applyWidths (some [("Timestamp", 19)])
          ⟨standard_columns, [[some "a", none, none, none, none, none, none]]⟩
        = standard_columns.map (fun c => lookupWidth [("Timestamp", 19)] c) :=
  ⟨rfl, by decide,
    (C10_column_widths .absent "VMAT" [] [("Timestamp", 19)]
      ⟨standard_columns, [[some "a", none, none, none, none, none, none]]⟩
      rfl (by decide)).2.1⟩
